import Mathlib

/-!
Shallow embedding of the Tuiporal terminal dashboard core (src/app.rs and
src/temporal/client.rs): the per-screen UI state machines, the key handler,
the result-application function of the main loop, and one step of the worker
task handler.  Machine integers that the app uses (`usize` pages, `u16`
scroll offsets) are modelled as `Nat` with explicit saturation where the
source saturates; `Vec<u8>` page tokens are `List Nat`; `Instant`-based time
is passed explicitly as a `now : Nat` timestamp in seconds.
-/

namespace Tuiporal

/-! ### Protobuf-generated record types, modelled by the fields the app reads -/

structure WorkflowExecution where
  workflow_id : String
  run_id : String
deriving DecidableEq, Repr

structure WorkflowExecutionInfo where
  execution : Option WorkflowExecution
deriving DecidableEq, Repr

/-- `Default::default()` for the prost-generated message: every optional
field is `None`. -/
def WorkflowExecutionInfo.default_info : WorkflowExecutionInfo := ⟨none⟩

structure HistoryEvent where
  event_id : Nat
deriving DecidableEq, Repr

structure NamespaceInfo where
  name : String
deriving DecidableEq, Repr

structure DescribeNamespaceResponse where
  namespace_info : Option NamespaceInfo
deriving DecidableEq, Repr

structure History where
  events : List HistoryEvent
deriving DecidableEq, Repr

structure ListWorkflowExecutionsResponse where
  executions : List WorkflowExecutionInfo
  next_page_token : List Nat
deriving DecidableEq, Repr

structure GetWorkflowExecutionHistoryResponse where
  history : Option History
deriving DecidableEq, Repr

structure ListNamespacesResponse where
  namespaces : List DescribeNamespaceResponse
deriving DecidableEq, Repr

/-! ### Commands and results (src/app.rs `AppCommand`, `AppResult`) -/

inductive AppCommand
  | refreshWorkflows (query : String)
  | loadNextPage (query : String) (page_token : List Nat)
  | loadPreviousPage (query : String)
  | viewWorkflowDetail (workflow_id run_id : String)
  | refreshNamespaces
  | switchNamespace (name : String)
  | terminateWorkflow (workflow_id run_id reason : String)
  | cancelWorkflow (workflow_id run_id : String)
  | signalWorkflow (workflow_id run_id signal_name : String)
deriving DecidableEq, Repr

inductive AppResult
  | workflowsLoaded (workflows : List WorkflowExecutionInfo) (next_page_token : List Nat)
  | workflowsError (msg : String)
  | workflowDetailLoaded (workflow : WorkflowExecutionInfo) (history : List HistoryEvent)
  | workflowDetailError (msg : String)
  | namespacesLoaded (namespaces : List DescribeNamespaceResponse)
  | namespacesError (msg : String)
  | namespaceSwitched (ns : String)
  | workflowOperationSuccess (msg : String)
  | workflowOperationError (msg : String)
deriving DecidableEq, Repr

/-! ### ratatui `TableState`: the app only reads and writes `selected` -/

structure TableState where
  selected : Option Nat := none
deriving DecidableEq, Repr

def TableState.select (t : TableState) (i : Option Nat) : TableState :=
  { t with selected := i }

/-! ### Workflow list screen state (src/app.rs `WorkflowListState`) -/

inductive WorkflowFilter
  | All
  | Running
  | Completed
  | Failed
  | Canceled
deriving DecidableEq, Repr

structure WorkflowListState where
  items : List WorkflowExecutionInfo
  table_state : TableState
  next_page_token : List Nat
  prev_page_tokens : List (List Nat)
  loading : Bool
  error : Option String
  current_page : Nat
  query : String
  query_history : List String
  input_mode : Bool
  active_filter : Option WorkflowFilter
  auto_refresh_enabled : Bool
  auto_refresh_interval_secs : Nat
  last_refresh : Option Nat
deriving DecidableEq, Repr

def WorkflowListState.new : WorkflowListState where
  items := []
  table_state := {}
  next_page_token := []
  prev_page_tokens := []
  loading := false
  error := none
  current_page := 1
  query := ""
  query_history := []
  input_mode := false
  active_filter := none
  auto_refresh_enabled := false
  auto_refresh_interval_secs := 5
  last_refresh := none

/-- `WorkflowListState::should_refresh`; `now` is the current time in
seconds, so `last.elapsed().as_secs()` is the saturating `now - last`. -/
def WorkflowListState.should_refresh (s : WorkflowListState) (now : Nat) : Bool :=
  if !s.auto_refresh_enabled || s.loading then false
  else
    match s.last_refresh with
    | some last => decide (s.auto_refresh_interval_secs ≤ now - last)
    | none => true

def WorkflowListState.mark_refreshed (s : WorkflowListState) (now : Nat) : WorkflowListState :=
  { s with last_refresh := some now }

/-- The inner `match` of `WorkflowListState::get_query` mapping a filter to
its query atom. -/
def WorkflowFilter.filter_query : WorkflowFilter → Option String
  | .All => none
  | .Running => some "ExecutionStatus = 'Running'"
  | .Completed => some "ExecutionStatus = 'Completed'"
  | .Failed => some "ExecutionStatus = 'Failed'"
  | .Canceled => some "ExecutionStatus = 'Canceled'"

/-- `WorkflowListState::get_query`: push the filter atom (if any), then the
free-text query (if non-empty), then join with " AND ". -/
def WorkflowListState.get_query (s : WorkflowListState) : String :=
  let queries : List String :=
    (match s.active_filter with
     | some filter =>
       match filter.filter_query with
       | some fq => [fq]
       | none => []
     | none => []) ++
    (if s.query.isEmpty then [] else [s.query])
  String.intercalate " AND " queries

def WorkflowListState.has_next_page (s : WorkflowListState) : Bool :=
  !s.next_page_token.isEmpty

def WorkflowListState.has_prev_page (s : WorkflowListState) : Bool :=
  !s.prev_page_tokens.isEmpty

def WorkflowListState.select_next (s : WorkflowListState) : WorkflowListState :=
  if s.items.isEmpty then s
  else
    let i :=
      match s.table_state.selected with
      | some i => if s.items.length - 1 ≤ i then 0 else i + 1
      | none => 0
    { s with table_state := s.table_state.select (some i) }

def WorkflowListState.select_previous (s : WorkflowListState) : WorkflowListState :=
  if s.items.isEmpty then s
  else
    let i :=
      match s.table_state.selected with
      | some i => if i = 0 then s.items.length - 1 else i - 1
      | none => 0
    { s with table_state := s.table_state.select (some i) }

def WorkflowListState.selected_workflow (s : WorkflowListState) : Option WorkflowExecutionInfo :=
  s.table_state.selected.bind (fun i => s.items.get? i)

/-! ### Workflow detail screen state (src/app.rs `WorkflowDetailState`) -/

inductive WorkflowOperation
  | Terminate
  | Cancel
  | Signal
deriving DecidableEq, Repr

structure WorkflowDetailState where
  workflow : Option WorkflowExecutionInfo
  history : List HistoryEvent
  table_state : TableState
  loading : Bool
  error : Option String
  show_dialog : Option WorkflowOperation
  dialog_input : String
  success_message : Option String
  show_event_detail : Bool
  event_detail_scroll_offset : Nat
deriving DecidableEq, Repr

def WorkflowDetailState.new : WorkflowDetailState where
  workflow := none
  history := []
  table_state := {}
  loading := false
  error := none
  show_dialog := none
  dialog_input := ""
  success_message := none
  show_event_detail := false
  event_detail_scroll_offset := 0

def WorkflowDetailState.selected_event (d : WorkflowDetailState) : Option HistoryEvent :=
  d.table_state.selected.bind (fun i => d.history.get? i)

def WorkflowDetailState.select_next (d : WorkflowDetailState) : WorkflowDetailState :=
  if d.history.isEmpty then d
  else
    let i :=
      match d.table_state.selected with
      | some i => if d.history.length - 1 ≤ i then 0 else i + 1
      | none => 0
    { d with table_state := d.table_state.select (some i) }

def WorkflowDetailState.select_previous (d : WorkflowDetailState) : WorkflowDetailState :=
  if d.history.isEmpty then d
  else
    let i :=
      match d.table_state.selected with
      | some i => if i = 0 then d.history.length - 1 else i - 1
      | none => 0
    { d with table_state := d.table_state.select (some i) }

/-! ### Namespace list screen state (src/app.rs `NamespaceListState`) -/

structure NamespaceListState where
  items : List DescribeNamespaceResponse
  table_state : TableState
  loading : Bool
  error : Option String
deriving DecidableEq, Repr

def NamespaceListState.new : NamespaceListState where
  items := []
  table_state := {}
  loading := false
  error := none

def NamespaceListState.select_next (s : NamespaceListState) : NamespaceListState :=
  if s.items.isEmpty then s
  else
    let i :=
      match s.table_state.selected with
      | some i => if s.items.length - 1 ≤ i then 0 else i + 1
      | none => 0
    { s with table_state := s.table_state.select (some i) }

def NamespaceListState.select_previous (s : NamespaceListState) : NamespaceListState :=
  if s.items.isEmpty then s
  else
    let i :=
      match s.table_state.selected with
      | some i => if i = 0 then s.items.length - 1 else i - 1
      | none => 0
    { s with table_state := s.table_state.select (some i) }

def NamespaceListState.selected_namespace (s : NamespaceListState) : Option DescribeNamespaceResponse :=
  s.table_state.selected.bind (fun i => s.items.get? i)

/-! ### Help screen state; `scroll_offset` is a `u16` with saturating ops -/

structure HelpState where
  scroll_offset : Nat
deriving DecidableEq, Repr

def HelpState.new : HelpState := ⟨0⟩

def HelpState.scroll_down (h : HelpState) (amount : Nat) : HelpState :=
  { h with scroll_offset := min (h.scroll_offset + amount) 65535 }

def HelpState.scroll_up (h : HelpState) (amount : Nat) : HelpState :=
  { h with scroll_offset := h.scroll_offset - amount }

def HelpState.reset_scroll (h : HelpState) : HelpState :=
  { h with scroll_offset := 0 }

/-! ### App state (src/app.rs `App`, the fields the state machine mutates) -/

inductive Screen
  | Workflows
  | Namespaces
  | WorkflowDetail
  | Help
deriving DecidableEq, Repr

structure App where
  running : Bool
  current_screen : Screen
  workflow_list_state : WorkflowListState
  workflow_detail_state : WorkflowDetailState
  namespace_list_state : NamespaceListState
  help_state : HelpState
  current_namespace : String
deriving DecidableEq, Repr

/-- The app as built by `App::new` before the initial refresh is applied. -/
def App.initial : App where
  running := true
  current_screen := .Workflows
  workflow_list_state := WorkflowListState.new
  workflow_detail_state := WorkflowDetailState.new
  namespace_list_state := NamespaceListState.new
  help_state := HelpState.new
  current_namespace := "default"

/-! ### Key codes (crossterm `KeyCode`, the variants the app matches on) -/

inductive KeyCode
  | char (c : Char)
  | enter
  | esc
  | backspace
  | up
  | down
  | left
  | right
  | pageUp
  | pageDown
deriving DecidableEq, Repr

/-! ### `App::handle_key` — one function per `match self.current_screen` arm.
Each handler returns the new app state together with the list of commands
sent on `command_tx` during the keystroke (in send order). -/

/-- The filter-cycling `match` inlined in the `'f'` arm of
`App::handle_key` (`None -> Running -> Completed -> Failed -> Canceled ->
All -> None`). -/
def cycle_filter : Option WorkflowFilter → Option WorkflowFilter
  | none => some .Running
  | some .Running => some .Completed
  | some .Completed => some .Failed
  | some .Failed => some .Canceled
  | some .Canceled => some .All
  | some .All => none

/-- The `Screen::Workflows` arm of `App::handle_key`. -/
def handle_workflows_key (a : App) (key : KeyCode) : App × List AppCommand :=
  if a.workflow_list_state.input_mode then
    match key with
    | .char c =>
      ({ a with workflow_list_state :=
          { a.workflow_list_state with query := a.workflow_list_state.query.push c } }, [])
    | .backspace =>
      ({ a with workflow_list_state :=
          { a.workflow_list_state with query := a.workflow_list_state.query.dropRight 1 } }, [])
    | .enter =>
      let s := a.workflow_list_state
      let s := if !s.query.isEmpty
        then { s with query_history := s.query_history ++ [s.query] } else s
      let s := { s with input_mode := false, loading := true, prev_page_tokens := [],
                        current_page := 1 }
      ({ a with workflow_list_state := s }, [.refreshWorkflows s.get_query])
    | .esc =>
      ({ a with workflow_list_state := { a.workflow_list_state with input_mode := false } }, [])
    | _ => (a, [])
  else
    match key with
    | .char 'q' | .esc => ({ a with running := false }, [])
    | .char '1' => ({ a with current_screen := .Workflows }, [])
    | .char '2' =>
      let a := { a with current_screen := .Namespaces }
      if a.namespace_list_state.items.isEmpty && !a.namespace_list_state.loading then
        ({ a with namespace_list_state := { a.namespace_list_state with loading := true } },
         [.refreshNamespaces])
      else (a, [])
    | .char '?' =>
      ({ a with help_state := a.help_state.reset_scroll, current_screen := .Help }, [])
    | .char '/' =>
      ({ a with workflow_list_state :=
          { a.workflow_list_state with input_mode := true, query := "" } }, [])
    | .char 'f' =>
      let s := a.workflow_list_state
      let s := { s with active_filter := cycle_filter s.active_filter,
                        loading := true, prev_page_tokens := [], current_page := 1 }
      ({ a with workflow_list_state := s }, [.refreshWorkflows s.get_query])
    | .char 'c' =>
      let s := a.workflow_list_state
      let s := { s with active_filter := none, query := "", loading := true,
                        prev_page_tokens := [], current_page := 1 }
      ({ a with workflow_list_state := s }, [.refreshWorkflows ""])
    | .char 'a' =>
      ({ a with workflow_list_state :=
          { a.workflow_list_state with
            auto_refresh_enabled := !a.workflow_list_state.auto_refresh_enabled } }, [])
    | .down | .char 'j' =>
      ({ a with workflow_list_state := a.workflow_list_state.select_next }, [])
    | .up | .char 'k' =>
      ({ a with workflow_list_state := a.workflow_list_state.select_previous }, [])
    | .char 'r' =>
      let s := a.workflow_list_state
      let s := { s with loading := true, prev_page_tokens := [], current_page := 1 }
      ({ a with workflow_list_state := s }, [.refreshWorkflows s.get_query])
    | .char 'n' | .right =>
      let s := a.workflow_list_state
      if s.has_next_page && !s.loading then
        let s := { s with loading := true }
        let s := if !s.next_page_token.isEmpty
          then { s with prev_page_tokens := s.prev_page_tokens ++ [[]],
                        current_page := s.current_page + 1 }
          else s
        ({ a with workflow_list_state := s },
         [.loadNextPage s.get_query s.next_page_token])
      else (a, [])
    | .char 'p' | .left =>
      let s := a.workflow_list_state
      if s.has_prev_page && !s.loading then
        let s := { s with loading := true,
                          prev_page_tokens := s.prev_page_tokens.dropLast,
                          current_page := max (s.current_page - 1) 1 }
        ({ a with workflow_list_state := s }, [.loadPreviousPage s.get_query])
      else (a, [])
    | .enter =>
      match a.workflow_list_state.selected_workflow with
      | some workflow =>
        match workflow.execution with
        | some execution =>
          ({ a with
             workflow_detail_state := { a.workflow_detail_state with loading := true },
             current_screen := .WorkflowDetail },
           [.viewWorkflowDetail execution.workflow_id execution.run_id])
        | none => (a, [])
      | none => (a, [])
    | _ => (a, [])

/-- The `Screen::Namespaces` arm of `App::handle_key`. -/
def handle_namespaces_key (a : App) (key : KeyCode) : App × List AppCommand :=
  match key with
  | .char 'q' | .esc => ({ a with current_screen := .Workflows }, [])
  | .char '1' => ({ a with current_screen := .Workflows }, [])
  | .char '2' => ({ a with current_screen := .Namespaces }, [])
  | .down | .char 'j' =>
    ({ a with namespace_list_state := a.namespace_list_state.select_next }, [])
  | .up | .char 'k' =>
    ({ a with namespace_list_state := a.namespace_list_state.select_previous }, [])
  | .char 'r' =>
    ({ a with namespace_list_state := { a.namespace_list_state with loading := true } },
     [.refreshNamespaces])
  | .enter =>
    match a.namespace_list_state.selected_namespace with
    | some ns_response =>
      match ns_response.namespace_info with
      | some ns_info => (a, [.switchNamespace ns_info.name])
      | none => (a, [])
    | none => (a, [])
  | _ => (a, [])

/-- The `Screen::WorkflowDetail` arm of `App::handle_key`: event-detail
modal first, then success-banner dismissal, then dialog input, then the
normal keymap. -/
def handle_detail_key (a : App) (key : KeyCode) : App × List AppCommand :=
  let d := a.workflow_detail_state
  if d.show_event_detail then
    match key with
    | .esc | .char 'q' =>
      ({ a with workflow_detail_state :=
          { d with show_event_detail := false, event_detail_scroll_offset := 0 } }, [])
    | .down | .char 'j' =>
      ({ a with workflow_detail_state :=
          { d with event_detail_scroll_offset := min (d.event_detail_scroll_offset + 1) 65535 } },
       [])
    | .up | .char 'k' =>
      ({ a with workflow_detail_state :=
          { d with event_detail_scroll_offset := d.event_detail_scroll_offset - 1 } }, [])
    | .pageDown =>
      ({ a with workflow_detail_state :=
          { d with event_detail_scroll_offset := min (d.event_detail_scroll_offset + 10) 65535 } },
       [])
    | .pageUp =>
      ({ a with workflow_detail_state :=
          { d with event_detail_scroll_offset := d.event_detail_scroll_offset - 10 } }, [])
    | _ => (a, [])
  else if d.success_message.isSome then
    ({ a with workflow_detail_state := { d with success_message := none } }, [])
  else
    match d.show_dialog with
    | some operation =>
      match key with
      | .char c =>
        ({ a with workflow_detail_state := { d with dialog_input := d.dialog_input.push c } }, [])
      | .backspace =>
        ({ a with workflow_detail_state :=
            { d with dialog_input := d.dialog_input.dropRight 1 } }, [])
      | .enter =>
        let step : WorkflowDetailState × List AppCommand :=
          match d.workflow with
          | some workflow =>
            match workflow.execution with
            | some execution =>
              let workflow_id := execution.workflow_id
              let run_id := execution.run_id
              let input := d.dialog_input
              match operation with
              | .Terminate =>
                let reason := if input.isEmpty then "Terminated by user" else input
                (d, [.terminateWorkflow workflow_id run_id reason])
              | .Cancel => (d, [.cancelWorkflow workflow_id run_id])
              | .Signal =>
                if !input.isEmpty then (d, [.signalWorkflow workflow_id run_id input])
                else
                  ({ d with error := some "Signal name cannot be empty",
                            show_dialog := none, dialog_input := "" }, [])
            | none => (d, [])
          | none => (d, [])
        ({ a with workflow_detail_state :=
            { step.1 with show_dialog := none, dialog_input := "" } }, step.2)
      | .esc =>
        ({ a with workflow_detail_state := { d with show_dialog := none, dialog_input := "" } },
         [])
      | _ => (a, [])
    | none =>
      match key with
      | .char 'q' | .esc => ({ a with current_screen := .Workflows }, [])
      | .char '1' => ({ a with current_screen := .Workflows }, [])
      | .char '2' =>
        let a := { a with current_screen := .Namespaces }
        if a.namespace_list_state.items.isEmpty && !a.namespace_list_state.loading then
          ({ a with namespace_list_state := { a.namespace_list_state with loading := true } },
           [.refreshNamespaces])
        else (a, [])
      | .char 't' =>
        ({ a with workflow_detail_state :=
            { d with show_dialog := some .Terminate, dialog_input := "",
                     success_message := none, error := none } }, [])
      | .char 'x' =>
        ({ a with workflow_detail_state :=
            { d with show_dialog := some .Cancel, dialog_input := "",
                     success_message := none, error := none } }, [])
      | .char 's' =>
        ({ a with workflow_detail_state :=
            { d with show_dialog := some .Signal, dialog_input := "",
                     success_message := none, error := none } }, [])
      | .down | .char 'j' =>
        ({ a with workflow_detail_state := d.select_next }, [])
      | .up | .char 'k' =>
        ({ a with workflow_detail_state := d.select_previous }, [])
      | .enter =>
        if d.selected_event.isSome then
          ({ a with workflow_detail_state :=
              { d with event_detail_scroll_offset := 0, show_event_detail := true } }, [])
        else (a, [])
      | _ => (a, [])

/-- The `Screen::Help` arm of `App::handle_key`. -/
def handle_help_key (a : App) (key : KeyCode) : App × List AppCommand :=
  match key with
  | .char 'q' | .esc | .char '?' => ({ a with current_screen := .Workflows }, [])
  | .down | .char 'j' => ({ a with help_state := a.help_state.scroll_down 1 }, [])
  | .up | .char 'k' => ({ a with help_state := a.help_state.scroll_up 1 }, [])
  | .pageDown => ({ a with help_state := a.help_state.scroll_down 10 }, [])
  | .pageUp => ({ a with help_state := a.help_state.scroll_up 10 }, [])
  | _ => (a, [])

/-- `App::handle_key`. -/
def handle_key (a : App) (key : KeyCode) : App × List AppCommand :=
  match a.current_screen with
  | .Workflows => handle_workflows_key a key
  | .Namespaces => handle_namespaces_key a key
  | .WorkflowDetail => handle_detail_key a key
  | .Help => handle_help_key a key

/-! ### `App::process_results` — application of a single drained result.
`now` is the current time in seconds (`Instant::now()` at the moment
`mark_refreshed` runs).  Returns the new app state and the commands sent
while applying the result. -/

def apply_result (now : Nat) (a : App) : AppResult → App × List AppCommand
  | .workflowsLoaded workflows next_page_token =>
    let s := a.workflow_list_state
    let s := { s with items := workflows, next_page_token := next_page_token,
                      loading := false, error := none }
    let s := s.mark_refreshed now
    let s := if !s.items.isEmpty
      then { s with table_state := s.table_state.select (some 0) } else s
    ({ a with workflow_list_state := s }, [])
  | .workflowsError e =>
    ({ a with workflow_list_state :=
        { a.workflow_list_state with error := some e, loading := false } }, [])
  | .workflowDetailLoaded workflow history =>
    let d := a.workflow_detail_state
    let d := { d with workflow := some workflow, history := history,
                      loading := false, error := none }
    let d := if !d.history.isEmpty && d.table_state.selected.isNone
      then { d with table_state := d.table_state.select (some 0) } else d
    ({ a with workflow_detail_state := d }, [])
  | .workflowDetailError e =>
    ({ a with workflow_detail_state :=
        { a.workflow_detail_state with error := some e, loading := false } }, [])
  | .namespacesLoaded namespaces =>
    let s := a.namespace_list_state
    let s := { s with items := namespaces, loading := false, error := none }
    let s := if !s.items.isEmpty && s.table_state.selected.isNone
      then { s with table_state := s.table_state.select (some 0) } else s
    ({ a with namespace_list_state := s }, [])
  | .namespacesError e =>
    ({ a with namespace_list_state :=
        { a.namespace_list_state with error := some e, loading := false } }, [])
  | .namespaceSwitched ns =>
    let a := { a with current_namespace := ns,
                      workflow_list_state := { a.workflow_list_state with loading := true } }
    let query := a.workflow_list_state.get_query
    ({ a with current_screen := .Workflows }, [.refreshWorkflows query])
  | .workflowOperationSuccess msg =>
    ({ a with workflow_detail_state :=
        { a.workflow_detail_state with success_message := some msg,
                                       show_dialog := none, dialog_input := "" } }, [])
  | .workflowOperationError e =>
    ({ a with workflow_detail_state :=
        { a.workflow_detail_state with error := some e,
                                       show_dialog := none, dialog_input := "" } }, [])

/-! ### The worker loop (src/app.rs `App::spawn_task_handler`).
The remote service is modelled as an oracle mapping each call's arguments
to its outcome; `ns_name` is the client's mutable current namespace. -/

structure TemporalClient where
  ns_name : String
  list_workflow_executions : Nat → List Nat → String → Except String ListWorkflowExecutionsResponse
  get_workflow_execution_history :
    String → String → Nat → List Nat → Except String GetWorkflowExecutionHistoryResponse
  list_namespaces : Nat → List Nat → Except String ListNamespacesResponse
  terminate_workflow : String → String → String → Except String Unit
  cancel_workflow : String → String → Except String Unit
  signal_workflow : String → String → String → Except String Unit

/-- A remote call made by the worker, with the arguments the client passes. -/
inductive RemoteCall
  | listWorkflows (page_size : Nat) (next_page_token : List Nat) (query : String)
  | getHistory (workflow_id run_id : String) (page_size : Nat) (next_page_token : List Nat)
  | listNs (page_size : Nat) (next_page_token : List Nat)
  | terminate (workflow_id run_id reason : String)
  | cancel (workflow_id run_id : String)
  | signal (workflow_id run_id signal_name : String)
deriving DecidableEq, Repr

/-- Output of one iteration of the worker loop body: the (possibly
re-namespaced) client, the results emitted on `result_tx`, and the remote
calls made, each in order. -/
structure StepOutput where
  client : TemporalClient
  results : List AppResult
  calls : List RemoteCall

/-- One iteration of the `while let Some(command) = command_rx.recv()` body
of `App::spawn_task_handler`. -/
def task_handler_step (client : TemporalClient) : AppCommand → StepOutput
  | .refreshWorkflows query =>
    match client.list_workflow_executions 50 [] query with
    | .ok response =>
      ⟨client, [.workflowsLoaded response.executions response.next_page_token],
       [.listWorkflows 50 [] query]⟩
    | .error e =>
      ⟨client, [.workflowsError ("Failed to load workflows: " ++ e)],
       [.listWorkflows 50 [] query]⟩
  | .loadNextPage query page_token =>
    match client.list_workflow_executions 50 page_token query with
    | .ok response =>
      ⟨client, [.workflowsLoaded response.executions response.next_page_token],
       [.listWorkflows 50 page_token query]⟩
    | .error e =>
      ⟨client, [.workflowsError ("Failed to load next page: " ++ e)],
       [.listWorkflows 50 page_token query]⟩
  | .loadPreviousPage query =>
    match client.list_workflow_executions 50 [] query with
    | .ok response =>
      ⟨client, [.workflowsLoaded response.executions response.next_page_token],
       [.listWorkflows 50 [] query]⟩
    | .error e =>
      ⟨client, [.workflowsError ("Failed to load previous page: " ++ e)],
       [.listWorkflows 50 [] query]⟩
  | .viewWorkflowDetail workflow_id run_id =>
    let meta_query := "WorkflowId = '" ++ workflow_id ++ "'"
    let workflow_info :=
      (client.list_workflow_executions 1 [] meta_query).toOption.bind
        (fun response => response.executions.head?)
    let calls : List RemoteCall :=
      [.listWorkflows 1 [] meta_query, .getHistory workflow_id run_id 100 []]
    match client.get_workflow_execution_history workflow_id run_id 100 [] with
    | .ok response =>
      match response.history with
      | some history =>
        ⟨client,
         [.workflowDetailLoaded (workflow_info.getD WorkflowExecutionInfo.default_info)
            history.events],
         calls⟩
      | none => ⟨client, [], calls⟩
    | .error e =>
      ⟨client, [.workflowDetailError ("Failed to load workflow detail: " ++ e)], calls⟩
  | .refreshNamespaces =>
    match client.list_namespaces 50 [] with
    | .ok response =>
      ⟨client, [.namespacesLoaded response.namespaces], [.listNs 50 []]⟩
    | .error e =>
      ⟨client, [.namespacesError ("Failed to load namespaces: " ++ e)], [.listNs 50 []]⟩
  | .switchNamespace ns =>
    ⟨{ client with ns_name := ns }, [.namespaceSwitched ns], []⟩
  | .terminateWorkflow workflow_id run_id reason =>
    match client.terminate_workflow workflow_id run_id reason with
    | .ok _ =>
      ⟨client,
       [.workflowOperationSuccess ("Workflow " ++ workflow_id ++ " terminated successfully")],
       [.terminate workflow_id run_id reason]⟩
    | .error e =>
      ⟨client, [.workflowOperationError ("Failed to terminate workflow: " ++ e)],
       [.terminate workflow_id run_id reason]⟩
  | .cancelWorkflow workflow_id run_id =>
    match client.cancel_workflow workflow_id run_id with
    | .ok _ =>
      ⟨client,
       [.workflowOperationSuccess
          ("Workflow " ++ workflow_id ++ " cancel requested successfully")],
       [.cancel workflow_id run_id]⟩
    | .error e =>
      ⟨client, [.workflowOperationError ("Failed to cancel workflow: " ++ e)],
       [.cancel workflow_id run_id]⟩
  | .signalWorkflow workflow_id run_id signal_name =>
    match client.signal_workflow workflow_id run_id signal_name with
    | .ok _ =>
      ⟨client,
       [.workflowOperationSuccess
          ("Signal '" ++ signal_name ++ "' sent to workflow " ++ workflow_id
            ++ " successfully")],
       [.signal workflow_id run_id signal_name]⟩
    | .error e =>
      ⟨client, [.workflowOperationError ("Failed to signal workflow: " ++ e)],
       [.signal workflow_id run_id signal_name]⟩

/-! ### Pagination traces: `Next page` / `Previous page` keypresses
interleaved with the main loop applying drained results -/

inductive PageEvent
  | keyNext
  | keyPrev
  | res (r : AppResult)

/-- One trace event: the `'n'` key, the `'p'` key, or the main loop
applying a drained result. -/
def page_step (now : Nat) (a : App) : PageEvent → App
  | .keyNext => (handle_key a (.char 'n')).1
  | .keyPrev => (handle_key a (.char 'p')).1
  | .res r => (apply_result now a r).1

def run_page_events (now : Nat) : App → List PageEvent → App
  | a, [] => a
  | a, e :: es => run_page_events now (page_step now a e) es

/-- The guard of the `'n'` arm: a non-empty forward cursor and not
loading. -/
def next_guard (a : App) : Bool :=
  a.workflow_list_state.has_next_page && !a.workflow_list_state.loading

/-- Number of forward-page advances a trace performs: `'n'` presses whose
guard held when pressed. -/
def count_next_advances (now : Nat) : App → List PageEvent → Nat
  | _, [] => 0
  | a, e :: es =>
    (match e with
     | .keyNext => if next_guard a then 1 else 0
     | _ => 0) + count_next_advances now (page_step now a e) es

/-- Invariant tying the page counter to the backward stack, plus the facts
that pagination traces stay on the workflow list in normal mode. -/
def page_inv (a : App) : Prop :=
  a.current_screen = .Workflows ∧ a.workflow_list_state.input_mode = false ∧
    a.workflow_list_state.current_page = 1 + a.workflow_list_state.prev_page_tokens.length

/-! ### Concrete fixtures used by the witnesses and counterexamples -/

def wf_a : WorkflowExecutionInfo := ⟨some ⟨"wf-a", "run-a"⟩⟩

def wf_b : WorkflowExecutionInfo := ⟨some ⟨"wf-b", "run-b"⟩⟩

/-- Oracle whose metadata lookup succeeds with no matches and whose history
fetch succeeds but carries no `history` payload. -/
def history_none_client : TemporalClient where
  ns_name := "default"
  list_workflow_executions := fun _ _ _ => .ok ⟨[], []⟩
  get_workflow_execution_history := fun _ _ _ _ => .ok ⟨none⟩
  list_namespaces := fun _ _ => .ok ⟨[]⟩
  terminate_workflow := fun _ _ _ => .ok ()
  cancel_workflow := fun _ _ => .ok ()
  signal_workflow := fun _ _ _ => .ok ()

/-- A list screen showing two rows with the second row selected. -/
def stale_selection_app : App :=
  { App.initial with workflow_list_state :=
      { WorkflowListState.new with items := [wf_a, wf_b], table_state := ⟨some 1⟩ } }

/-- A list screen on page 2 with one backward marker, idle. -/
def page_two_app : App :=
  { App.initial with workflow_list_state :=
      { WorkflowListState.new with prev_page_tokens := [[]], current_page := 2 } }

/-- Detail screen with an open Signal dialog but no subject workflow. -/
def signal_no_workflow_app : App :=
  { App.initial with current_screen := .WorkflowDetail,
                     workflow_detail_state :=
                       { WorkflowDetailState.new with show_dialog := some .Signal } }

/-- Detail screen with an open Signal dialog and a subject workflow. -/
def signal_with_workflow_app : App :=
  { App.initial with current_screen := .WorkflowDetail,
                     workflow_detail_state :=
                       { WorkflowDetailState.new with workflow := some wf_a,
                                                      show_dialog := some .Signal } }

/-- Auto-refresh enabled, interval 5 s, last refreshed at time 0. -/
def refresh_due_state : WorkflowListState :=
  { WorkflowListState.new with auto_refresh_enabled := true,
                               auto_refresh_interval_secs := 5, last_refresh := some 0 }

/-- The scenario state of §8: free-text query plus the Running filter. -/
def foo_running_state : WorkflowListState :=
  { WorkflowListState.new with query := "WorkflowType='Foo'",
                               active_filter := some .Running }

/-- Empty list whose stored selection index is out of bounds. -/
def oob_list_state : WorkflowListState :=
  { WorkflowListState.new with table_state := ⟨some 5⟩ }

/-- Empty history whose stored selection index is out of bounds. -/
def oob_detail_state : WorkflowDetailState :=
  { WorkflowDetailState.new with table_state := ⟨some 5⟩ }

/-! ## Theorems -/

/-- Helper: a string's `isEmpty` test agrees with equality to `""`. -/
theorem string_isEmpty_iff (s : String) : s.isEmpty = true ↔ s = "" := by
  cases s with
  | mk data =>
    cases data with
    | nil => simp [String.isEmpty]
    | cons c cs =>
      simp only [String.isEmpty, String.endPos, String.utf8ByteSize]
      constructor
      · intro h
        have h' := congrArg String.Pos.byteIdx (eq_of_beq h)
        simp at h'
        have := Char.utf8Size_pos c
        omega
      · intro h
        have h' := congrArg String.data h
        simp at h'

/-- C1: the worker loop is meant to emit exactly one `AppResult` for every
`AppCommand`, but for `ViewWorkflowDetail` the code emits none when the
history fetch succeeds with an absent `history` payload (the
`if let Some(history)` in `spawn_task_handler` has no else arm), even
though the metadata lookup and the history call both returned `Ok`. -/
theorem viewWorkflowDetail_history_none_emits_no_result :
    (task_handler_step history_none_client (.viewWorkflowDetail "wf" "run")).results = [] ∧
      history_none_client.get_workflow_execution_history "wf" "run" 100 [] = .ok ⟨none⟩ :=
  ⟨rfl, rfl⟩

/-- C2 counterexample: applying a successful page result carrying an empty
record list to a list whose selection is `some 1` leaves the selection at
`some 1` instead of clearing it to `none`, so the claimed
"selection is `None` when `items` is empty" restoration fails. -/
theorem workflowsLoaded_empty_keeps_stale_selection :
    (apply_result 10 stale_selection_app (.workflowsLoaded [] [])).1.workflow_list_state.items
        = [] ∧
      (apply_result 10 stale_selection_app
          (.workflowsLoaded [] [])).1.workflow_list_state.table_state.selected = some 1 :=
  ⟨rfl, rfl⟩

/-- C2 (amended): a successful page result replaces `items` and the forward
cursor, clears `loading` and `error`, stamps `last_refresh`, sends no
command, and sets the selection to index 0 when the returned list is
non-empty; when it is empty the previous selection is left unchanged. -/
theorem workflowsLoaded_updates_list_state (now : Nat) (a : App)
    (workflows : List WorkflowExecutionInfo) (next_page_token : List Nat) :
    let p := apply_result now a (.workflowsLoaded workflows next_page_token)
    p.1.workflow_list_state.items = workflows ∧
      p.1.workflow_list_state.next_page_token = next_page_token ∧
      p.1.workflow_list_state.loading = false ∧
      p.1.workflow_list_state.error = none ∧
      p.1.workflow_list_state.last_refresh = some now ∧
      p.1.workflow_list_state.table_state.selected =
        (if workflows.isEmpty then a.workflow_list_state.table_state.selected else some 0) ∧
      p.2 = [] := by
  cases workflows <;>
    simp [apply_result, WorkflowListState.mark_refreshed, TableState.select]

/-- C7: the auto-refresh due-ness test holds exactly when auto-refresh is
enabled, the list is not loading, and either the list was never refreshed
or at least the configured interval elapsed since the last refresh; in
particular the 5 s interval / refreshed 6 s ago scenario is due, and the
same state while loading is not. -/
theorem should_refresh_characterization :
    (∀ (s : WorkflowListState) (now : Nat),
        s.should_refresh now = true ↔
          s.auto_refresh_enabled = true ∧ s.loading = false ∧
            (s.last_refresh = none ∨
              ∃ last, s.last_refresh = some last ∧
                s.auto_refresh_interval_secs ≤ now - last)) ∧
      refresh_due_state.should_refresh 6 = true ∧
      ({ refresh_due_state with loading := true }).should_refresh 6 = false := by
  refine ⟨fun s now => ?_, rfl, rfl⟩
  unfold WorkflowListState.should_refresh
  cases he : s.auto_refresh_enabled <;> cases hl : s.loading <;>
    cases hr : s.last_refresh <;> simp [he, hl, hr]

/-- C9: the effective query joins the active filter's atom (when the filter
contributes one: `All` and no filter contribute none) with the free-text
query using " AND ", filter atom first; the §8 scenario composes to
`ExecutionStatus = 'Running' AND WorkflowType='Foo'`. -/
theorem get_query_composition :
    (∀ s : WorkflowListState, s.active_filter = none → s.get_query = s.query) ∧
      (∀ s : WorkflowListState, s.active_filter = some .All → s.get_query = s.query) ∧
      (∀ (s : WorkflowListState) (f : WorkflowFilter) (fq : String),
        s.active_filter = some f → f.filter_query = some fq → s.query = "" →
          s.get_query = fq) ∧
      (∀ (s : WorkflowListState) (f : WorkflowFilter) (fq : String),
        s.active_filter = some f → f.filter_query = some fq → s.query ≠ "" →
          s.get_query = fq ++ " AND " ++ s.query) ∧
      foo_running_state.get_query = "ExecutionStatus = 'Running' AND WorkflowType='Foo'" := by
  have hempty : ∀ s : WorkflowListState, s.query ≠ "" → s.query.isEmpty = false := by
    intro s h
    cases hie : s.query.isEmpty with
    | true => exact absurd ((string_isEmpty_iff s.query).mp hie) h
    | false => rfl
  refine ⟨?_, ?_, ?_, ?_, rfl⟩
  · intro s h
    by_cases hq : s.query = ""
    · simp [WorkflowListState.get_query, h, hq]
      rfl
    · simp [WorkflowListState.get_query, h, hempty s hq]
      rfl
  · intro s h
    by_cases hq : s.query = ""
    · simp [WorkflowListState.get_query, h, hq, WorkflowFilter.filter_query]
      rfl
    · simp [WorkflowListState.get_query, h, hempty s hq, WorkflowFilter.filter_query]
      rfl
  · intro s f fq h hfq hq
    simp [WorkflowListState.get_query, h, hfq, hq]
    rfl
  · intro s f fq h hfq hq
    simp [WorkflowListState.get_query, h, hfq, hempty s hq]
    rfl

/-- C9 witness: the general composition rule instantiated at the §8
scenario state. -/
theorem get_query_composition_witness :
    foo_running_state.get_query =
      "ExecutionStatus = 'Running'" ++ " AND " ++ "WorkflowType='Foo'" := by
  have h := get_query_composition
  exact h.2.2.2.1 foo_running_state .Running "ExecutionStatus = 'Running'" rfl rfl (by decide)

/-- C10: the selected-record accessors are total: whenever the stored
selection index is out of bounds of the current list, they return `none`. -/
theorem selected_accessors_total :
    (∀ (s : WorkflowListState) (i : Nat),
        s.table_state.selected = some i → s.items.length ≤ i →
          s.selected_workflow = none) ∧
      (∀ (d : WorkflowDetailState) (i : Nat),
        d.table_state.selected = some i → d.history.length ≤ i →
          d.selected_event = none) := by
  constructor
  · intro s i hsel hlen
    simp only [WorkflowListState.selected_workflow, hsel, Option.some_bind]
    exact List.get?_eq_none.mpr hlen
  · intro d i hsel hlen
    simp only [WorkflowDetailState.selected_event, hsel, Option.some_bind]
    exact List.get?_eq_none.mpr hlen

/-- C10 witness: both accessors at empty lists whose stored index is 5. -/
theorem selected_accessors_total_witness :
    oob_list_state.selected_workflow = none ∧ oob_detail_state.selected_event = none :=
  ⟨selected_accessors_total.1 oob_list_state 5 rfl (by decide),
   selected_accessors_total.2 oob_detail_state 5 rfl (by decide)⟩

/-- C3: with a non-empty backward stack and not loading, the `'p'` key pops
the stack, decrements the page with a floor of 1, and sends
`LoadPreviousPage`; the worker executes that command by a single listing
call with an empty page token (re-listing from the beginning), not by
replaying a retained backward cursor. -/
theorem prev_page_pops_and_relists (a : App)
    (hscreen : a.current_screen = .Workflows)
    (hinput : a.workflow_list_state.input_mode = false)
    (hprev : a.workflow_list_state.has_prev_page = true)
    (hload : a.workflow_list_state.loading = false) :
    ((handle_key a (.char 'p')).1.workflow_list_state.prev_page_tokens =
        a.workflow_list_state.prev_page_tokens.dropLast ∧
      (handle_key a (.char 'p')).1.workflow_list_state.current_page =
        max (a.workflow_list_state.current_page - 1) 1 ∧
      (handle_key a (.char 'p')).1.workflow_list_state.loading = true ∧
      (handle_key a (.char 'p')).2 =
        [.loadPreviousPage a.workflow_list_state.get_query]) ∧
      ∀ (client : TemporalClient) (query : String),
        (task_handler_step client (.loadPreviousPage query)).calls =
          [.listWorkflows 50 [] query] := by
  constructor
  · obtain ⟨running, screen, wls, wds, nls, hstate, ns⟩ := a
    obtain ⟨items, ts, tok, stack, loading, err, page, q, qh, im, fl, ar, ari, lr⟩ := wls
    simp only at hscreen hinput hprev hload
    subst hscreen hinput hload
    simp only [WorkflowListState.has_prev_page, Bool.not_eq_true'] at hprev
    cases stack with
    | nil => simp at hprev
    | cons t ts' => exact ⟨rfl, rfl, rfl, rfl⟩
  · intro client query
    cases h : client.list_workflow_executions 50 [] query <;>
      simp [task_handler_step, h]

/-- C3 witness: the theorem applied to the idle page-2 state with one
backward marker. -/
theorem prev_page_pops_and_relists_witness :
    (handle_key page_two_app (.char 'p')).1.workflow_list_state.current_page = 1 ∧
      (handle_key page_two_app (.char 'p')).2 = [.loadPreviousPage ""] := by
  have h := prev_page_pops_and_relists page_two_app rfl rfl rfl rfl
  exact ⟨h.1.2.1, h.1.2.2.2⟩

/-- C8: the filter cycle steps through
`None, Running, Completed, Failed, Canceled, All` and wraps back to `None`,
so six steps return any starting value to itself; each `'f'` press applies
one step, resets the page to 1, clears the backward stack, sets loading,
and sends a refresh for the recomposed query. -/
theorem filter_cycle_closure_and_reset :
    (∀ f : Option WorkflowFilter,
        cycle_filter (cycle_filter (cycle_filter (cycle_filter
          (cycle_filter (cycle_filter f))))) = f) ∧
      ∀ a : App, a.current_screen = .Workflows →
        a.workflow_list_state.input_mode = false →
          (handle_key a (.char 'f')).1.workflow_list_state.active_filter =
              cycle_filter a.workflow_list_state.active_filter ∧
            (handle_key a (.char 'f')).1.workflow_list_state.current_page = 1 ∧
            (handle_key a (.char 'f')).1.workflow_list_state.prev_page_tokens = [] ∧
            (handle_key a (.char 'f')).1.workflow_list_state.loading = true ∧
            (handle_key a (.char 'f')).2 =
              [.refreshWorkflows
                (handle_key a (.char 'f')).1.workflow_list_state.get_query] := by
  constructor
  · intro f
    cases f with
    | none => rfl
    | some ff => cases ff <;> rfl
  · intro a hscreen hinput
    obtain ⟨running, screen, wls, wds, nls, hstate, ns⟩ := a
    obtain ⟨items, ts, tok, stack, loading, err, page, q, qh, im, fl, ar, ari, lr⟩ := wls
    simp only at hscreen hinput
    subst hscreen hinput
    exact ⟨rfl, rfl, rfl, rfl, rfl⟩

/-- C8 witness: six `'f'`-steps from no filter return to no filter, and one
press from the initial app state activates `Running` and refreshes. -/
theorem filter_cycle_closure_and_reset_witness :
    cycle_filter (cycle_filter (cycle_filter (cycle_filter
        (cycle_filter (cycle_filter none))))) = none ∧
      (handle_key App.initial (.char 'f')).1.workflow_list_state.active_filter =
        some .Running ∧
      (handle_key App.initial (.char 'f')).2 =
        [.refreshWorkflows "ExecutionStatus = 'Running'"] := by
  have h := filter_cycle_closure_and_reset
  have h2 := h.2 App.initial rfl rfl
  exact ⟨h.1 none, h2.1, h2.2.2.2.2⟩

/-- C4: a failure result sets `error` and clears `loading` while leaving
`items`, the forward cursor, and the backward cursor stack unchanged and
sending nothing, so applying the same failure twice leaves `items`
unchanged both times. -/
theorem workflowsError_frame_and_idempotent (now : Nat) (a : App) (e : String) :
    (apply_result now a (.workflowsError e)).1.workflow_list_state.error = some e ∧
      (apply_result now a (.workflowsError e)).1.workflow_list_state.loading = false ∧
      (apply_result now a (.workflowsError e)).1.workflow_list_state.items =
        a.workflow_list_state.items ∧
      (apply_result now a (.workflowsError e)).1.workflow_list_state.next_page_token =
        a.workflow_list_state.next_page_token ∧
      (apply_result now a (.workflowsError e)).1.workflow_list_state.prev_page_tokens =
        a.workflow_list_state.prev_page_tokens ∧
      (apply_result now a (.workflowsError e)).2 = [] ∧
      (apply_result now (apply_result now a (.workflowsError e)).1
          (.workflowsError e)).1.workflow_list_state.items =
        a.workflow_list_state.items := by
  simp [apply_result]

/-- C6 counterexample: confirming an open Signal dialog with an empty input
buffer while the detail state has no subject workflow sends no command and
closes the dialog, but leaves `error` at `none` — no validation error
message is set, contrary to the claim. -/
theorem signal_empty_confirm_without_workflow_sets_no_error :
    (handle_key signal_no_workflow_app .enter).2 = [] ∧
      (handle_key signal_no_workflow_app .enter).1.workflow_detail_state.show_dialog =
        none ∧
      (handle_key signal_no_workflow_app .enter).1.workflow_detail_state.error = none :=
  ⟨rfl, rfl, rfl⟩

/-- C6 (amended): on the detail screen with no event-detail overlay and no
pending success banner, confirming an open Signal dialog with an empty
input buffer never sends a command and closes the dialog (clearing the
input); the validation error message is set exactly when the subject
workflow and its execution are present, and otherwise `error` is left
unchanged. -/
theorem signal_empty_confirm_behavior (a : App)
    (hscreen : a.current_screen = .WorkflowDetail)
    (hmodal : a.workflow_detail_state.show_event_detail = false)
    (hbanner : a.workflow_detail_state.success_message = none)
    (hdialog : a.workflow_detail_state.show_dialog = some .Signal)
    (hinput : a.workflow_detail_state.dialog_input = "") :
    (handle_key a .enter).2 = [] ∧
      (handle_key a .enter).1.workflow_detail_state.show_dialog = none ∧
      (handle_key a .enter).1.workflow_detail_state.dialog_input = "" ∧
      ((a.workflow_detail_state.workflow.bind (fun w => w.execution)).isSome = true →
        (handle_key a .enter).1.workflow_detail_state.error =
          some "Signal name cannot be empty") ∧
      ((a.workflow_detail_state.workflow.bind (fun w => w.execution)).isSome = false →
        (handle_key a .enter).1.workflow_detail_state.error =
          a.workflow_detail_state.error) := by
  obtain ⟨running, screen, wls, wds, nls, hstate, ns⟩ := a
  obtain ⟨wf, hist, ts, loading, err, dlg, dinput, smsg, sed, soff⟩ := wds
  simp only at hscreen hmodal hbanner hdialog hinput
  subst hscreen hmodal hbanner hdialog hinput
  cases wf with
  | none => exact ⟨rfl, rfl, rfl, fun h => by simp at h, fun _ => rfl⟩
  | some w =>
    cases hex : w.execution with
    | none =>
      obtain ⟨we⟩ := w
      simp only at hex
      subst hex
      exact ⟨rfl, rfl, rfl, fun h => by simp at h, fun _ => rfl⟩
    | some e =>
      obtain ⟨we⟩ := w
      simp only at hex
      subst hex
      exact ⟨rfl, rfl, rfl, fun _ => rfl, fun h => by simp at h⟩

/-- C6 witness: the amended behavior at a detail state whose subject
workflow is present: empty-input confirm sends nothing and sets the
validation error. -/
theorem signal_empty_confirm_behavior_witness :
    (handle_key signal_with_workflow_app .enter).2 = [] ∧
      (handle_key signal_with_workflow_app .enter).1.workflow_detail_state.error =
        some "Signal name cannot be empty" := by
  have h := signal_empty_confirm_behavior signal_with_workflow_app rfl rfl rfl rfl rfl
  exact ⟨h.1, h.2.2.2.1 rfl⟩

/-- Helper: every pagination trace event preserves the page/stack
invariant, and the backward stack grows by at most the advance count of
the event. -/
theorem page_step_preserves_inv (now : Nat) (a : App) (e : PageEvent) (h : page_inv a) :
    page_inv (page_step now a e) ∧
      (page_step now a e).workflow_list_state.prev_page_tokens.length ≤
        a.workflow_list_state.prev_page_tokens.length +
          (match e with
           | .keyNext => if next_guard a then 1 else 0
           | _ => 0) := by
  obtain ⟨h1, h2, h3⟩ := h
  cases e with
  | keyNext =>
    by_cases hg : next_guard a = true
    · simp only [hg, if_true]
      simp only [next_guard, WorkflowListState.has_next_page, Bool.and_eq_true,
        Bool.not_eq_true'] at hg
      obtain ⟨htok, hld⟩ := hg
      obtain ⟨running, screen, wls, wds, nls, hstate, ns⟩ := a
      obtain ⟨items, ts, tok, stack, loading, err, page, q, qh, im, fl, ar, ari, lr⟩ := wls
      simp only at h1 h2 h3 htok hld
      subst h1 h2 hld
      cases tok with
      | nil => simp at htok
      | cons b bs =>
        refine ⟨⟨rfl, rfl, ?_⟩, ?_⟩
        · show page + 1 = 1 + (stack ++ [([] : List Nat)]).length
          simp only [List.length_append, List.length_cons, List.length_nil]
          omega
        · show (stack ++ [([] : List Nat)]).length ≤ stack.length + 1
          simp [List.length_append]
    · simp only [hg, if_false]
      obtain ⟨running, screen, wls, wds, nls, hstate, ns⟩ := a
      obtain ⟨items, ts, tok, stack, loading, err, page, q, qh, im, fl, ar, ari, lr⟩ := wls
      simp only at h1 h2 h3
      subst h1 h2
      simp only [next_guard, WorkflowListState.has_next_page, Bool.and_eq_true,
        Bool.not_eq_true', not_and] at hg
      cases tok with
      | nil => exact ⟨⟨rfl, rfl, h3⟩, Nat.le_add_right _ _⟩
      | cons b bs =>
        cases loading with
        | true => exact ⟨⟨rfl, rfl, h3⟩, Nat.le_add_right _ _⟩
        | false => exact absurd rfl (hg (by simp))
  | keyPrev =>
    obtain ⟨running, screen, wls, wds, nls, hstate, ns⟩ := a
    obtain ⟨items, ts, tok, stack, loading, err, page, q, qh, im, fl, ar, ari, lr⟩ := wls
    simp only at h1 h2 h3
    subst h1 h2
    cases stack with
    | nil => exact ⟨⟨rfl, rfl, h3⟩, Nat.le_add_right _ _⟩
    | cons t ts' =>
      cases loading with
      | true => exact ⟨⟨rfl, rfl, h3⟩, Nat.le_add_right _ _⟩
      | false =>
        simp only [List.length_cons] at h3
        refine ⟨⟨rfl, rfl, ?_⟩, ?_⟩
        · show max (page - 1) 1 = 1 + ((t :: ts').dropLast).length
          simp only [List.length_dropLast, List.length_cons]
          omega
        · show ((t :: ts').dropLast).length ≤ (t :: ts').length + 0
          simp only [List.length_dropLast, List.length_cons]
          omega
  | res r =>
    obtain ⟨running, screen, wls, wds, nls, hstate, ns⟩ := a
    obtain ⟨items, ts, tok, stack, loading, err, page, q, qh, im, fl, ar, ari, lr⟩ := wls
    simp only at h1 h2 h3
    subst h1 h2
    cases r with
    | workflowsLoaded ws tok2 =>
      cases ws with
      | nil => exact ⟨⟨rfl, rfl, h3⟩, Nat.le_add_right _ _⟩
      | cons w ws' => exact ⟨⟨rfl, rfl, h3⟩, Nat.le_add_right _ _⟩
    | workflowsError e => exact ⟨⟨rfl, rfl, h3⟩, Nat.le_add_right _ _⟩
    | workflowDetailLoaded w hist => exact ⟨⟨rfl, rfl, h3⟩, Nat.le_add_right _ _⟩
    | workflowDetailError e => exact ⟨⟨rfl, rfl, h3⟩, Nat.le_add_right _ _⟩
    | namespacesLoaded nss => exact ⟨⟨rfl, rfl, h3⟩, Nat.le_add_right _ _⟩
    | namespacesError e => exact ⟨⟨rfl, rfl, h3⟩, Nat.le_add_right _ _⟩
    | namespaceSwitched n => exact ⟨⟨rfl, rfl, h3⟩, Nat.le_add_right _ _⟩
    | workflowOperationSuccess m => exact ⟨⟨rfl, rfl, h3⟩, Nat.le_add_right _ _⟩
    | workflowOperationError e => exact ⟨⟨rfl, rfl, h3⟩, Nat.le_add_right _ _⟩

/-- Helper: folding a pagination trace preserves the invariant and bounds
the growth of the backward stack by the trace's advance count. -/
theorem run_page_events_bound (now : Nat) (es : List PageEvent) (a : App)
    (h : page_inv a) :
    page_inv (run_page_events now a es) ∧
      (run_page_events now a es).workflow_list_state.prev_page_tokens.length ≤
        a.workflow_list_state.prev_page_tokens.length + count_next_advances now a es := by
  induction es generalizing a with
  | nil => exact ⟨h, Nat.le_add_right _ _⟩
  | cons e es ih =>
    obtain ⟨hstep, hlen⟩ := page_step_preserves_inv now a e h
    obtain ⟨hinv, hrest⟩ := ih (page_step now a e) hstep
    refine ⟨?_, ?_⟩
    · simpa only [run_page_events] using hinv
    · simp only [run_page_events, count_next_advances]
      omega

/-- C5: along every trace of `'n'` / `'p'` presses (each taking effect only
when its guard — non-empty forward cursor or non-empty backward stack, and
not loading — holds) interleaved with the main loop applying drained
results, starting from the initial app state, the page counter stays at
least 1 and never exceeds one plus the number of forward-page advances
performed so far. -/
theorem page_counter_bounds (now : Nat) (es : List PageEvent) :
    1 ≤ (run_page_events now App.initial es).workflow_list_state.current_page ∧
      (run_page_events now App.initial es).workflow_list_state.current_page ≤
        1 + count_next_advances now App.initial es := by
  obtain ⟨⟨-, -, h3⟩, hlen⟩ :=
    run_page_events_bound now es App.initial ⟨rfl, rfl, rfl⟩
  have h0 : App.initial.workflow_list_state.prev_page_tokens.length = 0 := rfl
  omega

end Tuiporal
